import Mathlib

/- Verification development for the archive type declarations in
   jenkins_interface/common/swtools/main.br/downloader/updaterlib/public/drv_arch_type.h
   together with the archive codec that the specification describes over them.
   The header file itself declares only constants, enumerations and structures;
   the codec operations (TagTable, HeaderCodec, ZipHeaderCodec, BootTrailerCodec)
   are modelled from the specification text, as marked on each definition. -/

/-- Source constant `ZIP_ARCH_VER_1_0` (drv_arch_type.h line 50). -/
def ZIP_ARCH_VER_1_0 : Nat := 0x1CE70100

/-- Source constant `ZIP_MODE_NONE` (drv_arch_type.h line 53). -/
def ZIP_MODE_NONE : Nat := 0

/-- Source constant `ZIP_MODE_ZLIB` (drv_arch_type.h line 54). -/
def ZIP_MODE_ZLIB : Nat := 1

/-- Source constant `ZIP_MODE_LAST` (drv_arch_type.h line 55). -/
def ZIP_MODE_LAST : Nat := ZIP_MODE_ZLIB

/-- Source constant `ARCH_ID_MASK` (drv_arch_type.h line 57). -/
def ARCH_ID_MASK : Nat := 0x00FFFFFF

/-- Source constant `ZIP_MODE_MASK` (drv_arch_type.h line 58). -/
def ZIP_MODE_MASK : Nat := 0xFF000000

/-- Source constant `ZIP_MODE_REQ_SHIFT` (drv_arch_type.h line 59). -/
def ZIP_MODE_REQ_SHIFT : Nat := 24

/-- Source macro `GET_ARCH_ID(x) = ((x) & ARCH_ID_MASK)` (drv_arch_type.h line 60). -/
def GET_ARCH_ID (x : Nat) : Nat := x &&& ARCH_ID_MASK

/-- Source macro `GET_ZIP_MODE(x) = ((uint8)(((x) & ZIP_MODE_MASK) >> ZIP_MODE_REQ_SHIFT))`
(drv_arch_type.h line 61); the `uint8` cast is the final `% 256`. -/
def GET_ZIP_MODE (x : Nat) : Nat := ((x &&& ZIP_MODE_MASK) >>> ZIP_MODE_REQ_SHIFT) % 256

/-- Source constant `ARCH_RFU_FIELD_SZ_XML` (drv_arch_type.h line 65). -/
def ARCH_RFU_FIELD_SZ_XML : Nat := 0x120

/-- Source constant `ARCH_RFU_FIELD_SZ` (drv_arch_type.h line 66). -/
def ARCH_RFU_FIELD_SZ : Nat := ARCH_RFU_FIELD_SZ_XML

/-- Source constant `ARCH_TAG_9040` (drv_arch_type.h line 68). -/
def ARCH_TAG_9040 : Nat := 0x1CE9040A

/-- Source constant `ARCH_TAG_9140` (drv_arch_type.h line 69). -/
def ARCH_TAG_9140 : Nat := 0x1CE9140A

/-- Source constant `ARCH_TAG_9060` (drv_arch_type.h line 70). -/
def ARCH_TAG_9060 : Nat := 0x1CE9060A

/-- Source constant `ARCH_TAG_BT2_TRAILER` (drv_arch_type.h line 72). -/
def ARCH_TAG_BT2_TRAILER : Nat := 0x1CEB72AB

/-- Source constant `IMEI_LENGTH` (drv_arch_type.h line 74). -/
def IMEI_LENGTH : Nat := 15

/-- Source enumeration `ArchId` (drv_arch_type.h lines 83-109), in declaration order. -/
inductive ArchId where
  | ARCH_ID_APP
  | ARCH_ID_BT2
  | ARCH_ID_IFT
  | ARCH_ID_LDR
  | ARCH_ID_IMEI
  | ARCH_ID_CUSTCFG
  | ARCH_ID_ZEROCD
  | ARCH_ID_MASS
  | ARCH_ID_AUDIOCFG
  | ARCH_ID_COMPAT
  | ARCH_ID_PLATCFG
  | ARCH_ID_SECCFG
  | ARCH_ID_UNLOCK
  | ARCH_ID_CALIB
  | ARCH_ID_CALIB_PATCH
  | ARCH_ID_SSL_CERT
  | ARCH_ID_DEVICECFG
  | ARCH_ID_PRODUCTCFG
  | ARCH_ID_ROBCOUNTER
  | ARCH_ID_FLASHDISK
  | ARCH_ID_WEBUI_PACKAGE
  | ARCH_ID_BT3
  | ARCH_ID_ACT
  | ARCH_ID_ACT_DATA
deriving DecidableEq

/-- Numeric value of each `ArchId` constant: the C enumeration starts at
`ARCH_ID_APP = 0` and increments by one in declaration order. -/
def ArchId.toNat : ArchId → Nat
  | .ARCH_ID_APP => 0
  | .ARCH_ID_BT2 => 1
  | .ARCH_ID_IFT => 2
  | .ARCH_ID_LDR => 3
  | .ARCH_ID_IMEI => 4
  | .ARCH_ID_CUSTCFG => 5
  | .ARCH_ID_ZEROCD => 6
  | .ARCH_ID_MASS => 7
  | .ARCH_ID_AUDIOCFG => 8
  | .ARCH_ID_COMPAT => 9
  | .ARCH_ID_PLATCFG => 10
  | .ARCH_ID_SECCFG => 11
  | .ARCH_ID_UNLOCK => 12
  | .ARCH_ID_CALIB => 13
  | .ARCH_ID_CALIB_PATCH => 14
  | .ARCH_ID_SSL_CERT => 15
  | .ARCH_ID_DEVICECFG => 16
  | .ARCH_ID_PRODUCTCFG => 17
  | .ARCH_ID_ROBCOUNTER => 18
  | .ARCH_ID_FLASHDISK => 19
  | .ARCH_ID_WEBUI_PACKAGE => 20
  | .ARCH_ID_BT3 => 21
  | .ARCH_ID_ACT => 22
  | .ARCH_ID_ACT_DATA => 23

/-- Source enumeration `tSigKeySet` (drv_arch_type.h lines 240-253). -/
inductive tSigKeySet where
  | ARCH_ICE_ICE_KEY_SET
  | ARCH_ICE_OEM_KEY_SET
  | ARCH_OEM_FACT_KEY_SET
  | ARCH_NO_AUTH
  | ARCH_EXT_AUTH
  | ARCH_ICE_FACT_KEY_SET
  | ARCH_ICE_DBG_KEY_SET
  | ARCH_OEM_FIELD_KEY_SET
  | ARCH_ICE_CFG_KEY_SET
  | ARCH_ACT_ACT_KEY_SET
  | ARCH_SELF_ENCRYPTION
deriving DecidableEq

export tSigKeySet (ARCH_ICE_ICE_KEY_SET ARCH_ICE_OEM_KEY_SET ARCH_OEM_FACT_KEY_SET ARCH_NO_AUTH ARCH_EXT_AUTH ARCH_ICE_FACT_KEY_SET ARCH_ICE_DBG_KEY_SET ARCH_OEM_FIELD_KEY_SET ARCH_ICE_CFG_KEY_SET ARCH_ACT_ACT_KEY_SET ARCH_SELF_ENCRYPTION)

/-- Source enumeration `tArchFileType` (drv_arch_type.h lines 255-259). -/
inductive tArchFileType where
  | ARCH_TYPE_APPLI
  | ARCH_TYPE_DATA
deriving DecidableEq

export tArchFileType (ARCH_TYPE_APPLI ARCH_TYPE_DATA)

/-- Source enumeration `tArchPpidType` (drv_arch_type.h lines 261-267). -/
inductive tArchPpidType where
  | ARCH_NO_PPID
  | ARCH_PPID
  | ARCH_PFID
  | ARCH_PCID
deriving DecidableEq

export tArchPpidType (ARCH_NO_PPID ARCH_PPID ARCH_PFID ARCH_PCID)

/-- Source structure `tArchFileProperty` (drv_arch_type.h lines 269-284).  The C
field `int arch_id` always holds an `ArchId` enumeration value, embedded here as
`ArchId` directly (its numeric value is `ArchId.toNat`). -/
structure tArchFileProperty where
  acr : String
  arch_id : ArchId
  key_set : tSigKeySet
  ppid_check : tArchPpidType
  write_file_during_auth : Bool
  type : tArchFileType
  keep_wrapped_info : Bool
  is_patch : Bool
  ignore_magic : Bool
deriving DecidableEq

/-- Source acronym `ARCH_ACR_APP` (drv_arch_type.h line 117). -/
def ARCH_ACR_APP : String := "MDM"

/-- Source acronym `ARCH_ACR_BT2`. -/
def ARCH_ACR_BT2 : String := "BT2"

/-- Source acronym `ARCH_ACR_IFT`. -/
def ARCH_ACR_IFT : String := "IFT"

/-- Source acronym `ARCH_ACR_LDR`. -/
def ARCH_ACR_LDR : String := "LDR"

/-- Source acronym `ARCH_ACR_IMEI`. -/
def ARCH_ACR_IMEI : String := "IMEI"

/-- Source acronym `ARCH_ACR_CUSTCFG` (empty string in the source). -/
def ARCH_ACR_CUSTCFG : String := ""

/-- Source acronym `ARCH_ACR_ZEROCD` (empty string in the source). -/
def ARCH_ACR_ZEROCD : String := ""

/-- Source acronym `ARCH_ACR_MASS` (empty string in the source). -/
def ARCH_ACR_MASS : String := ""

/-- Source acronym `ARCH_ACR_AUDIOCFG`. -/
def ARCH_ACR_AUDIOCFG : String := "AUDIOCFG"

/-- Source acronym `ARCH_ACR_COMPAT`. -/
def ARCH_ACR_COMPAT : String := "COMPAT"

/-- Source acronym `ARCH_ACR_PLATCFG`. -/
def ARCH_ACR_PLATCFG : String := "PLATCFG"

/-- Source acronym `ARCH_ACR_SECCFG`. -/
def ARCH_ACR_SECCFG : String := "SECCFG"

/-- Source acronym `ARCH_ACR_UNLOCK`. -/
def ARCH_ACR_UNLOCK : String := "UNLOCK"

/-- Source acronym `ARCH_ACR_CALIB`. -/
def ARCH_ACR_CALIB : String := "CALIB"

/-- Source acronym `ARCH_ACR_CALIB_PATCH`. -/
def ARCH_ACR_CALIB_PATCH : String := "CALIB_PATCH"

/-- Source acronym `ARCH_ACR_SSL_CERT`. -/
def ARCH_ACR_SSL_CERT : String := "SSL_CERT"

/-- Source acronym `ARCH_ACR_DEVICECFG`. -/
def ARCH_ACR_DEVICECFG : String := "DEVICECFG"

/-- Source acronym `ARCH_ACR_PRODUCTCFG`. -/
def ARCH_ACR_PRODUCTCFG : String := "PRODUCTCFG"

/-- Source acronym `ARCH_ACR_ROBCOUNTER`. -/
def ARCH_ACR_ROBCOUNTER : String := "ROBCOUNTER"

/-- Source acronym `ARCH_ACR_FLASHDISK`. -/
def ARCH_ACR_FLASHDISK : String := "FLASHDISK"

/-- Source acronym `ARCH_ACR_WEBUI_PACKAGE` (empty string in the source). -/
def ARCH_ACR_WEBUI_PACKAGE : String := ""

/-- Source acronym `ARCH_ACR_BT3`. -/
def ARCH_ACR_BT3 : String := "BT3"

/-- Source acronym `ARCH_ACR_ACT`. -/
def ARCH_ACR_ACT : String := "ACT"

/-- Source acronym `ARCH_ACR_ACT_DATA`. -/
def ARCH_ACR_ACT_DATA : String := "ACT_DATA"

/-- Source macro `ARCH_PROP_APP` (drv_arch_type.h line 143). -/
def ARCH_PROP_APP : tArchFileProperty :=
  ⟨ARCH_ACR_APP, .ARCH_ID_APP, ARCH_ICE_OEM_KEY_SET, ARCH_NO_PPID, false, ARCH_TYPE_APPLI, true, false, false⟩

/-- Source macro `ARCH_PROP_BT2`. -/
def ARCH_PROP_BT2 : tArchFileProperty :=
  ⟨ARCH_ACR_BT2, .ARCH_ID_BT2, ARCH_ICE_ICE_KEY_SET, ARCH_NO_PPID, false, ARCH_TYPE_APPLI, true, false, false⟩

/-- Source macro `ARCH_PROP_IFT`. -/
def ARCH_PROP_IFT : tArchFileProperty :=
  ⟨ARCH_ACR_IFT, .ARCH_ID_IFT, ARCH_ICE_OEM_KEY_SET, ARCH_NO_PPID, false, ARCH_TYPE_APPLI, true, false, false⟩

/-- Source macro `ARCH_PROP_LDR`. -/
def ARCH_PROP_LDR : tArchFileProperty :=
  ⟨ARCH_ACR_LDR, .ARCH_ID_LDR, ARCH_ICE_OEM_KEY_SET, ARCH_NO_PPID, false, ARCH_TYPE_APPLI, true, false, false⟩

/-- Source macro `ARCH_PROP_BT3`. -/
def ARCH_PROP_BT3 : tArchFileProperty :=
  ⟨ARCH_ACR_BT3, .ARCH_ID_BT3, ARCH_ICE_OEM_KEY_SET, ARCH_NO_PPID, false, ARCH_TYPE_APPLI, true, false, false⟩

/-- Source macro `ARCH_PROP_ACT`. -/
def ARCH_PROP_ACT : tArchFileProperty :=
  ⟨ARCH_ACR_ACT, .ARCH_ID_ACT, ARCH_ICE_OEM_KEY_SET, ARCH_NO_PPID, false, ARCH_TYPE_APPLI, true, false, false⟩

/-- Source macro `ARCH_PROP_ACT_DATA`. -/
def ARCH_PROP_ACT_DATA : tArchFileProperty :=
  ⟨ARCH_ACR_ACT_DATA, .ARCH_ID_ACT_DATA, ARCH_OEM_FACT_KEY_SET, ARCH_PPID, false, ARCH_TYPE_DATA, true, false, false⟩

/-- Source macro `ARCH_PROP_IMEI_NO_AUTH` (drv_arch_type.h line 150): the
no-authentication variant of the IMEI property, not used in the PC table. -/
def ARCH_PROP_IMEI_NO_AUTH : tArchFileProperty :=
  ⟨ARCH_ACR_IMEI, .ARCH_ID_IMEI, ARCH_NO_AUTH, ARCH_NO_PPID, false, ARCH_TYPE_DATA, true, false, false⟩

/-- Source macro `ARCH_PROP_IMEI` (drv_arch_type.h line 151): OEM-factory-key
IMEI property with default-PPID check. -/
def ARCH_PROP_IMEI : tArchFileProperty :=
  ⟨ARCH_ACR_IMEI, .ARCH_ID_IMEI, ARCH_OEM_FACT_KEY_SET, ARCH_PPID, false, ARCH_TYPE_DATA, true, false, false⟩

/-- Source macro `ARCH_PROP_CUSTCFG`. -/
def ARCH_PROP_CUSTCFG : tArchFileProperty :=
  ⟨ARCH_ACR_CUSTCFG, .ARCH_ID_CUSTCFG, ARCH_OEM_FACT_KEY_SET, ARCH_PPID, false, ARCH_TYPE_DATA, true, false, false⟩

/-- Source macro `ARCH_PROP_ZEROCD`. -/
def ARCH_PROP_ZEROCD : tArchFileProperty :=
  ⟨ARCH_ACR_ZEROCD, .ARCH_ID_ZEROCD, ARCH_NO_AUTH, ARCH_NO_PPID, true, ARCH_TYPE_DATA, true, false, false⟩

/-- Source macro `ARCH_PROP_FLASHDISK`. -/
def ARCH_PROP_FLASHDISK : tArchFileProperty :=
  ⟨ARCH_ACR_FLASHDISK, .ARCH_ID_FLASHDISK, ARCH_NO_AUTH, ARCH_NO_PPID, true, ARCH_TYPE_DATA, false, false, false⟩

/-- Source macro `ARCH_PROP_MASS`. -/
def ARCH_PROP_MASS : tArchFileProperty :=
  ⟨ARCH_ACR_MASS, .ARCH_ID_MASS, ARCH_ICE_OEM_KEY_SET, ARCH_NO_PPID, false, ARCH_TYPE_APPLI, true, false, false⟩

/-- Source macro `ARCH_PROP_AUDIOCFG`. -/
def ARCH_PROP_AUDIOCFG : tArchFileProperty :=
  ⟨ARCH_ACR_AUDIOCFG, .ARCH_ID_AUDIOCFG, ARCH_NO_AUTH, ARCH_NO_PPID, false, ARCH_TYPE_DATA, true, false, false⟩

/-- Source macro `ARCH_PROP_COMPAT`. -/
def ARCH_PROP_COMPAT : tArchFileProperty :=
  ⟨ARCH_ACR_COMPAT, .ARCH_ID_COMPAT, ARCH_NO_AUTH, ARCH_NO_PPID, false, ARCH_TYPE_DATA, true, false, false⟩

/-- Source macro `ARCH_PROP_PLATCFG`. -/
def ARCH_PROP_PLATCFG : tArchFileProperty :=
  ⟨ARCH_ACR_PLATCFG, .ARCH_ID_PLATCFG, ARCH_NO_AUTH, ARCH_NO_PPID, false, ARCH_TYPE_DATA, false, false, false⟩

/-- Source macro `ARCH_PROP_SECCFG`. -/
def ARCH_PROP_SECCFG : tArchFileProperty :=
  ⟨ARCH_ACR_SECCFG, .ARCH_ID_SECCFG, ARCH_ICE_FACT_KEY_SET, ARCH_PPID, false, ARCH_TYPE_DATA, true, false, false⟩

/-- Source macro `ARCH_PROP_CALIB`. -/
def ARCH_PROP_CALIB : tArchFileProperty :=
  ⟨ARCH_ACR_CALIB, .ARCH_ID_CALIB, ARCH_OEM_FACT_KEY_SET, ARCH_NO_PPID, false, ARCH_TYPE_DATA, false, false, false⟩

/-- Source macro `ARCH_PROP_CALIB_PATCH`. -/
def ARCH_PROP_CALIB_PATCH : tArchFileProperty :=
  ⟨ARCH_ACR_CALIB_PATCH, .ARCH_ID_CALIB_PATCH, ARCH_OEM_FACT_KEY_SET, ARCH_NO_PPID, false, ARCH_TYPE_DATA, false, true, false⟩

/-- Source macro `ARCH_PROP_UNLOCK`. -/
def ARCH_PROP_UNLOCK : tArchFileProperty :=
  ⟨ARCH_ACR_UNLOCK, .ARCH_ID_UNLOCK, ARCH_ICE_DBG_KEY_SET, ARCH_PCID, false, ARCH_TYPE_DATA, true, false, false⟩

/-- Source macro `ARCH_PROP_SSL_CERT`. -/
def ARCH_PROP_SSL_CERT : tArchFileProperty :=
  ⟨ARCH_ACR_SSL_CERT, .ARCH_ID_SSL_CERT, ARCH_NO_AUTH, ARCH_NO_PPID, false, ARCH_TYPE_DATA, false, true, false⟩

/-- Source macro `ARCH_PROP_DEVICECFG`. -/
def ARCH_PROP_DEVICECFG : tArchFileProperty :=
  ⟨ARCH_ACR_DEVICECFG, .ARCH_ID_DEVICECFG, ARCH_OEM_FACT_KEY_SET, ARCH_PPID, false, ARCH_TYPE_DATA, true, false, false⟩

/-- Source macro `ARCH_PROP_PRODUCTCFG`. -/
def ARCH_PROP_PRODUCTCFG : tArchFileProperty :=
  ⟨ARCH_ACR_PRODUCTCFG, .ARCH_ID_PRODUCTCFG, ARCH_OEM_FIELD_KEY_SET, ARCH_NO_PPID, false, ARCH_TYPE_DATA, true, false, false⟩

/-- Source macro `ARCH_PROP_ROBCOUNTER`. -/
def ARCH_PROP_ROBCOUNTER : tArchFileProperty :=
  ⟨ARCH_ACR_ROBCOUNTER, .ARCH_ID_ROBCOUNTER, ARCH_ICE_CFG_KEY_SET, ARCH_PPID, false, ARCH_TYPE_DATA, true, false, false⟩

/-- Source macro `ARCH_PROP_WEBUI_PACKAGE`. -/
def ARCH_PROP_WEBUI_PACKAGE : tArchFileProperty :=
  ⟨ARCH_ACR_WEBUI_PACKAGE, .ARCH_ID_WEBUI_PACKAGE, ARCH_NO_AUTH, ARCH_NO_PPID, false, ARCH_TYPE_DATA, false, true, false⟩

/-- Source macro `DRV_ARCH_TYPE_TABLE_ON_PC` (drv_arch_type.h lines 179-205), in
the exact entry order of the initializer. -/
def DRV_ARCH_TYPE_TABLE_ON_PC : List tArchFileProperty :=
  [ARCH_PROP_APP, ARCH_PROP_BT2, ARCH_PROP_IFT, ARCH_PROP_LDR, ARCH_PROP_IMEI,
   ARCH_PROP_CUSTCFG, ARCH_PROP_ZEROCD, ARCH_PROP_MASS, ARCH_PROP_AUDIOCFG,
   ARCH_PROP_COMPAT, ARCH_PROP_PLATCFG, ARCH_PROP_SECCFG, ARCH_PROP_UNLOCK,
   ARCH_PROP_CALIB, ARCH_PROP_CALIB_PATCH, ARCH_PROP_SSL_CERT, ARCH_PROP_DEVICECFG,
   ARCH_PROP_PRODUCTCFG, ARCH_PROP_ROBCOUNTER, ARCH_PROP_FLASHDISK,
   ARCH_PROP_WEBUI_PACKAGE, ARCH_PROP_BT3, ARCH_PROP_ACT, ARCH_PROP_ACT_DATA]

/-- Modelled from the spec: the error kinds of section 7 of the specification;
the repository contains no codec implementation, only the type declarations. -/
inductive DecodeError where
  | TooShort
  | BadMagic
  | LengthMismatch
  | ChecksumMismatch
  | UnsupportedVersion
  | TruncatedData
  | UnknownArchiveId
deriving DecidableEq

instance exceptDecEq {ε α : Type} [DecidableEq ε] [DecidableEq α] :
    DecidableEq (Except ε α) := fun x y =>
  match x, y with
  | .error a, .error b =>
    if h : a = b then isTrue (congrArg Except.error h)
    else isFalse fun he => h (Except.error.inj he)
  | .error _, .ok _ => isFalse fun he => Except.noConfusion he
  | .ok _, .error _ => isFalse fun he => Except.noConfusion he
  | .ok a, .ok b =>
    if h : a = b then isTrue (congrArg Except.ok h)
    else isFalse fun he => h (Except.ok.inj he)

/-- Modelled from the spec: `TagTable.lookup` (spec section 4.1); the repository
declares only the property table, not the lookup operation.  Looks up the
property record for an archive id in `DRV_ARCH_TYPE_TABLE_ON_PC`. -/
def TagTable.lookup (id : ArchId) : Option tArchFileProperty :=
  DRV_ARCH_TYPE_TABLE_ON_PC.find? fun p => decide (p.arch_id = id)

/-- Modelled from the spec: numeric-key variant of `TagTable.lookup`, used by the
decoder on the raw 24-bit archive-id field of a tag. -/
def TagTable.lookupNat (n : Nat) : Option tArchFileProperty :=
  DRV_ARCH_TYPE_TABLE_ON_PC.find? fun p => decide (p.arch_id.toNat = n)

/-- Modelled from the spec: `TagTable.decompose` (spec section 4.1) splits a
packed 32-bit tag with the source macros `GET_ARCH_ID` / `GET_ZIP_MODE`; a zip
mode other than `ZIP_MODE_NONE` / `ZIP_MODE_ZLIB` is an unsupported-mode error
reported to the caller. -/
def TagTable.decompose (rawTag : Nat) : Except DecodeError (Nat × Nat) :=
  if GET_ZIP_MODE rawTag = ZIP_MODE_NONE ∨ GET_ZIP_MODE rawTag = ZIP_MODE_ZLIB then
    .ok (GET_ARCH_ID rawTag, GET_ZIP_MODE rawTag)
  else
    .error .UnsupportedVersion

/-- Modelled from the spec: `encode_tag` (spec section 6), packing
`(zipMode << 24) | (archiveId & 0x00FFFFFF)`. -/
def encode_tag (archiveId zipMode : Nat) : Nat :=
  (zipMode <<< 24) ||| (archiveId &&& ARCH_ID_MASK)

/-- Byte of a buffer at an index, 0 past the end (buffers are lists of bytes). -/
def byteAt : List Nat → Nat → Nat
  | [], _ => 0
  | b :: l, n => if n = 0 then b else byteAt l (n - 1)

/-- Replace the byte of a buffer at an index, identity past the end. -/
def setByte : List Nat → Nat → Nat → List Nat
  | [], _, _ => []
  | b :: l, n, v => if n = 0 then v :: l else b :: setByte l (n - 1) v

/-- Little-endian serialization of a 32-bit field into four bytes.  The
specification leaves byte order a configuration option; little-endian is the
documented choice of this development. -/
def u32le (x : Nat) : List Nat :=
  [x % 256, x / 256 % 256, x / 65536 % 256, x / 16777216 % 256]

/-- Little-endian read of a 32-bit field at a byte offset of a buffer. -/
def readU32 (buf : List Nat) (off : Nat) : Nat :=
  byteAt buf off + byteAt buf (off + 1) * 256 + byteAt buf (off + 2) * 65536 +
    byteAt buf (off + 3) * 16777216

/-- Flip one bit of a byte buffer: bit `i % 8` of byte `i / 8`. -/
def flipBit (buf : List Nat) (i : Nat) : List Nat :=
  setByte buf (i / 8) (byteAt buf (i / 8) ^^^ 2 ^ (i % 8))

/-- Fixed byte size of `tAppliFileHeader`: eight 32-bit fields plus the RFU
block (drv_arch_type.h lines 214-227), 320 bytes in total. -/
def FILE_HEADER_SZ : Nat := 8 * 4 + ARCH_RFU_FIELD_SZ

/-- Fixed byte size of `tZipAppliFileHeader`: three 32-bit fields. -/
def ZIP_HEADER_SZ : Nat := 3 * 4

/-- Fixed byte size of the magic+size prefix of `ArchBt2ExtTrailer`. -/
def BOOT_TRAILER_HDR_SZ : Nat := 2 * 4

/-- Source structure `tAppliFileHeader` (drv_arch_type.h lines 214-227): the TLV
file header.  All scalar fields are 32-bit; `rfu` is a byte block of
`ARCH_RFU_FIELD_SZ` bytes. -/
structure tAppliFileHeader where
  tag : Nat
  length : Nat
  file_size : Nat
  entry_address : Nat
  file_id : Nat
  sign_type : Nat
  checksum : Nat
  key_index : Nat
  rfu : List Nat
deriving DecidableEq

/-- Source structure `tZipAppliFileHeader` (drv_arch_type.h lines 232-237). -/
structure tZipAppliFileHeader where
  zip_arch_ver : Nat
  zip_header_length : Nat
  zip_file_size : Nat
deriving DecidableEq

/-- Source structure `ArchBt2ExtTrailer` (drv_arch_type.h lines 316-321): magic,
declared size, and the data block the size describes. -/
structure ArchBt2ExtTrailer where
  magic : Nat
  size : Nat
  data : List Nat
deriving DecidableEq

/-- Modelled from the spec: checksum over the fixed-size header region of a byte
buffer with the checksum field slot (bytes 24..27) treated as zero, accumulated
as an unsigned 32-bit sum (spec section 4.2 leaves the accumulation free;
byte-wise sum modulo 2^32 is the documented choice of this development). -/
def checksumOfBuf (buf : List Nat) : Nat :=
  ((Finset.range FILE_HEADER_SZ).sum fun i =>
    if 24 ≤ i ∧ i < 28 then 0 else byteAt buf i) % 4294967296

/-- Serialization of a header with a zeroed checksum slot, the region the
checksum is computed over. -/
def headerBytes0 (h : tAppliFileHeader) : List Nat :=
  u32le h.tag ++ (u32le h.length ++ (u32le h.file_size ++ (u32le h.entry_address ++
    (u32le h.file_id ++ (u32le h.sign_type ++ (u32le 0 ++ (u32le h.key_index ++ h.rfu)))))))

/-- Modelled from the spec: the checksum `HeaderCodec.encode` recomputes and
fills (spec section 4.2): the 32-bit byte sum of the serialized header with the
checksum slot zeroed. -/
def headerChecksum (h : tAppliFileHeader) : Nat :=
  checksumOfBuf (headerBytes0 h)

/-- Modelled from the spec: `HeaderCodec.encode` (spec section 4.2); the
repository contains no serializer.  Serializes the fields in declaration order
and fills the checksum slot with the recomputed checksum. -/
def HeaderCodec.encode (h : tAppliFileHeader) : List Nat :=
  u32le h.tag ++ (u32le h.length ++ (u32le h.file_size ++ (u32le h.entry_address ++
    (u32le h.file_id ++ (u32le h.sign_type ++ (u32le (headerChecksum h) ++
    (u32le h.key_index ++ h.rfu)))))))

/-- Modelled from the spec: `HeaderCodec.decode` (spec section 4.2); the
repository contains no parser.  Checks, in the order the specification lists
the failures: `TooShort` when the buffer is smaller than the fixed structure
size; `BadMagic` when the tag's archive-id field is unknown to the table;
unsupported zip mode; `LengthMismatch` when the length field differs from the
fixed structure size; `ChecksumMismatch` when the recomputed checksum differs
from the stored one. -/
def HeaderCodec.decode (buf : List Nat) : Except DecodeError tAppliFileHeader :=
  if buf.length < FILE_HEADER_SZ then .error .TooShort
  else if (TagTable.lookupNat (GET_ARCH_ID (readU32 buf 0))).isNone then .error .BadMagic
  else if ¬(GET_ZIP_MODE (readU32 buf 0) = ZIP_MODE_NONE ∨
            GET_ZIP_MODE (readU32 buf 0) = ZIP_MODE_ZLIB) then .error .UnsupportedVersion
  else if readU32 buf 4 ≠ FILE_HEADER_SZ then .error .LengthMismatch
  else if checksumOfBuf buf ≠ readU32 buf 24 then .error .ChecksumMismatch
  else .ok
    { tag := readU32 buf 0
      length := readU32 buf 4
      file_size := readU32 buf 8
      entry_address := readU32 buf 12
      file_id := readU32 buf 16
      sign_type := readU32 buf 20
      checksum := readU32 buf 24
      key_index := readU32 buf 28
      rfu := (buf.drop 32).take ARCH_RFU_FIELD_SZ }

/-- Modelled from the spec: `ZipHeaderCodec.decode` (spec section 4.3); the
repository contains no parser.  Fails with `TooShort` on insufficient bytes and
with `UnsupportedVersion` when `zip_arch_ver` is not `ZIP_ARCH_VER_1_0`. -/
def ZipHeaderCodec.decode (buf : List Nat) : Except DecodeError tZipAppliFileHeader :=
  if buf.length < ZIP_HEADER_SZ then .error .TooShort
  else if readU32 buf 0 ≠ ZIP_ARCH_VER_1_0 then .error .UnsupportedVersion
  else .ok
    { zip_arch_ver := readU32 buf 0
      zip_header_length := readU32 buf 4
      zip_file_size := readU32 buf 8 }

/-- Modelled from the spec: `BootTrailerCodec.decode` (spec section 4.4); the
repository contains no parser.  Reads magic and size, fails with
`TruncatedData` when fewer than `size` bytes remain, else captures exactly
`size` bytes as the data block. -/
def BootTrailerCodec.decode (buf : List Nat) : Except DecodeError ArchBt2ExtTrailer :=
  if buf.length < BOOT_TRAILER_HDR_SZ then .error .TooShort
  else if buf.length - BOOT_TRAILER_HDR_SZ < readU32 buf 4 then .error .TruncatedData
  else .ok
    { magic := readU32 buf 0
      size := readU32 buf 4
      data := (buf.drop BOOT_TRAILER_HDR_SZ).take (readU32 buf 4) }

/-- Modelled from the spec: a structurally valid `tAppliFileHeader` (spec
sections 3 and 8): 32-bit fields in range, an RFU block of exactly
`ARCH_RFU_FIELD_SZ` bytes, the length field equal to the fixed structure size,
the checksum field equal to the recomputed checksum, and a tag whose archive id
is known to the table with a supported zip mode. -/
def validHeader (h : tAppliFileHeader) : Prop :=
  h.tag < 4294967296 ∧ h.length = FILE_HEADER_SZ ∧ h.file_size < 4294967296 ∧
    h.entry_address < 4294967296 ∧ h.file_id < 4294967296 ∧
    h.sign_type < 4294967296 ∧ h.key_index < 4294967296 ∧
    h.checksum = headerChecksum h ∧ h.rfu.length = ARCH_RFU_FIELD_SZ ∧
    (∀ b ∈ h.rfu, b < 256) ∧
    (TagTable.lookupNat (GET_ARCH_ID h.tag)).isSome = true ∧
    (GET_ZIP_MODE h.tag = ZIP_MODE_NONE ∨ GET_ZIP_MODE h.tag = ZIP_MODE_ZLIB)

instance validHeader.decidable (h : tAppliFileHeader) : Decidable (validHeader h) := by
  unfold validHeader; infer_instance

lemma byteAt_cons_succ (b : Nat) (l : List Nat) (n : Nat) :
    byteAt (b :: l) (n + 1) = byteAt l n := by
  simp [byteAt]

lemma byteAt_append (l1 l2 : List Nat) (i : Nat) :
    byteAt (l1 ++ l2) i =
      if i < l1.length then byteAt l1 i else byteAt l2 (i - l1.length) := by
  induction l1 generalizing i with
  | nil => simp [byteAt]
  | cons b l1 ih =>
    cases i with
    | zero => simp [byteAt]
    | succ i =>
      simp only [List.cons_append, byteAt_cons_succ, ih, List.length_cons]
      by_cases hlt : i < l1.length
      · rw [if_pos hlt, if_pos (by omega)]
      · rw [if_neg hlt, if_neg (by omega)]
        congr 1
        omega

lemma byteAt_mem (l : List Nat) (n : Nat) (h : n < l.length) : byteAt l n ∈ l := by
  induction l generalizing n with
  | nil => simp at h
  | cons b l ih =>
    rcases Nat.eq_zero_or_pos n with rfl | hn
    · simp [byteAt]
    · have h0 : n ≠ 0 := by omega
      simp only [byteAt, if_neg h0]
      exact List.mem_cons_of_mem _ (ih _ (by simp at h; omega))

lemma byteAt_ge (l : List Nat) (n : Nat) (h : l.length ≤ n) : byteAt l n = 0 := by
  induction l generalizing n with
  | nil => rfl
  | cons b l ih =>
    have h0 : n ≠ 0 := by simp at h; omega
    simp only [byteAt, if_neg h0]
    exact ih _ (by simp at h; omega)

lemma byteAt_lt_of_mem_lt (l : List Nat) (n : Nat) (h : ∀ b ∈ l, b < 256) :
    byteAt l n < 256 := by
  by_cases hn : n < l.length
  · exact h _ (byteAt_mem l n hn)
  · rw [byteAt_ge l n (by omega)]
    omega

lemma length_setByte (l : List Nat) (n v : Nat) : (setByte l n v).length = l.length := by
  induction l generalizing n with
  | nil => rfl
  | cons b l ih =>
    by_cases hn : n = 0
    · simp [setByte, hn]
    · simp [setByte, hn, ih]

lemma byteAt_setByte_ne (l : List Nat) (n v m : Nat) (h : m ≠ n) :
    byteAt (setByte l n v) m = byteAt l m := by
  induction l generalizing n m with
  | nil => rfl
  | cons b l ih =>
    by_cases hn : n = 0
    · subst hn
      have h0 : m ≠ 0 := h
      simp [setByte, byteAt, if_neg h0]
    · simp only [setByte, if_neg hn]
      by_cases hm : m = 0
      · simp [byteAt, hm]
      · simp only [byteAt, if_neg hm]
        exact ih _ _ (by omega)

lemma byteAt_setByte_eq (l : List Nat) (n v : Nat) (h : n < l.length) :
    byteAt (setByte l n v) n = v := by
  induction l generalizing n with
  | nil => simp at h
  | cons b l ih =>
    by_cases hn : n = 0
    · simp [setByte, hn, byteAt]
    · simp only [setByte, if_neg hn, byteAt, if_neg hn]
      exact ih _ (by simp at h; omega)

lemma length_u32le (x : Nat) : (u32le x).length = 4 := by simp [u32le]

lemma byteAt_u32le_lt (x j : Nat) (hj : j < 4) : byteAt (u32le x) j < 256 := by
  interval_cases j <;> simp [u32le, byteAt] <;> omega

lemma byteAt_u32le_append (x : Nat) (l : List Nat) (i : Nat) (h : 4 ≤ i) :
    byteAt (u32le x ++ l) i = byteAt l (i - 4) := by
  obtain ⟨j, rfl⟩ : ∃ j, i = j + 4 := ⟨i - 4, by omega⟩
  simp [u32le, byteAt_cons_succ]

lemma readU32_u32le_append (x : Nat) (l : List Nat) (i : Nat) (h : 4 ≤ i) :
    readU32 (u32le x ++ l) i = readU32 l (i - 4) := by
  unfold readU32
  rw [byteAt_u32le_append _ _ _ h, byteAt_u32le_append _ _ _ (by omega),
      byteAt_u32le_append _ _ _ (by omega), byteAt_u32le_append _ _ _ (by omega)]
  have e1 : i + 1 - 4 = i - 4 + 1 := by omega
  have e2 : i + 2 - 4 = i - 4 + 2 := by omega
  have e3 : i + 3 - 4 = i - 4 + 3 := by omega
  rw [e1, e2, e3]

lemma readU32_u32le (x : Nat) (l : List Nat) :
    readU32 (u32le x ++ l) 0 = x % 4294967296 := by
  simp [readU32, u32le, byteAt]
  omega


lemma FILE_HEADER_SZ_eq : FILE_HEADER_SZ = 320 := rfl

lemma length_encode (h : tAppliFileHeader) :
    (HeaderCodec.encode h).length = 32 + h.rfu.length := by
  simp [HeaderCodec.encode, u32le]
  omega

lemma headerChecksum_lt (h : tAppliFileHeader) : headerChecksum h < 4294967296 := by
  unfold headerChecksum checksumOfBuf
  exact Nat.mod_lt _ (by norm_num)

lemma readU32_encode_0 (h : tAppliFileHeader) :
    readU32 (HeaderCodec.encode h) 0 = h.tag % 4294967296 := by
  unfold HeaderCodec.encode
  exact readU32_u32le _ _

lemma readU32_encode_4 (h : tAppliFileHeader) :
    readU32 (HeaderCodec.encode h) 4 = h.length % 4294967296 := by
  unfold HeaderCodec.encode
  rw [readU32_u32le_append _ _ _ (by norm_num)]
  norm_num
  exact readU32_u32le _ _

lemma readU32_encode_8 (h : tAppliFileHeader) :
    readU32 (HeaderCodec.encode h) 8 = h.file_size % 4294967296 := by
  unfold HeaderCodec.encode
  rw [readU32_u32le_append _ _ _ (by norm_num)]
  norm_num
  rw [readU32_u32le_append _ _ _ (by norm_num)]
  norm_num
  exact readU32_u32le _ _

lemma readU32_encode_12 (h : tAppliFileHeader) :
    readU32 (HeaderCodec.encode h) 12 = h.entry_address % 4294967296 := by
  unfold HeaderCodec.encode
  rw [readU32_u32le_append _ _ _ (by norm_num)]
  norm_num
  rw [readU32_u32le_append _ _ _ (by norm_num)]
  norm_num
  rw [readU32_u32le_append _ _ _ (by norm_num)]
  norm_num
  exact readU32_u32le _ _

lemma readU32_encode_16 (h : tAppliFileHeader) :
    readU32 (HeaderCodec.encode h) 16 = h.file_id % 4294967296 := by
  unfold HeaderCodec.encode
  rw [readU32_u32le_append _ _ _ (by norm_num)]
  norm_num
  rw [readU32_u32le_append _ _ _ (by norm_num)]
  norm_num
  rw [readU32_u32le_append _ _ _ (by norm_num)]
  norm_num
  rw [readU32_u32le_append _ _ _ (by norm_num)]
  norm_num
  exact readU32_u32le _ _

lemma readU32_encode_20 (h : tAppliFileHeader) :
    readU32 (HeaderCodec.encode h) 20 = h.sign_type % 4294967296 := by
  unfold HeaderCodec.encode
  rw [readU32_u32le_append _ _ _ (by norm_num)]
  norm_num
  rw [readU32_u32le_append _ _ _ (by norm_num)]
  norm_num
  rw [readU32_u32le_append _ _ _ (by norm_num)]
  norm_num
  rw [readU32_u32le_append _ _ _ (by norm_num)]
  norm_num
  rw [readU32_u32le_append _ _ _ (by norm_num)]
  norm_num
  exact readU32_u32le _ _

lemma readU32_encode_24 (h : tAppliFileHeader) :
    readU32 (HeaderCodec.encode h) 24 = headerChecksum h := by
  unfold HeaderCodec.encode
  rw [readU32_u32le_append _ _ _ (by norm_num)]
  norm_num
  rw [readU32_u32le_append _ _ _ (by norm_num)]
  norm_num
  rw [readU32_u32le_append _ _ _ (by norm_num)]
  norm_num
  rw [readU32_u32le_append _ _ _ (by norm_num)]
  norm_num
  rw [readU32_u32le_append _ _ _ (by norm_num)]
  norm_num
  rw [readU32_u32le_append _ _ _ (by norm_num)]
  norm_num
  rw [readU32_u32le _ _]
  exact Nat.mod_eq_of_lt (headerChecksum_lt h)

lemma readU32_encode_28 (h : tAppliFileHeader) :
    readU32 (HeaderCodec.encode h) 28 = h.key_index % 4294967296 := by
  unfold HeaderCodec.encode
  rw [readU32_u32le_append _ _ _ (by norm_num)]
  norm_num
  rw [readU32_u32le_append _ _ _ (by norm_num)]
  norm_num
  rw [readU32_u32le_append _ _ _ (by norm_num)]
  norm_num
  rw [readU32_u32le_append _ _ _ (by norm_num)]
  norm_num
  rw [readU32_u32le_append _ _ _ (by norm_num)]
  norm_num
  rw [readU32_u32le_append _ _ _ (by norm_num)]
  norm_num
  rw [readU32_u32le_append _ _ _ (by norm_num)]
  norm_num
  exact readU32_u32le _ _

lemma drop_32_encode (h : tAppliFileHeader) :
    (HeaderCodec.encode h).drop 32 = h.rfu := by
  have hsp : HeaderCodec.encode h =
      (u32le h.tag ++ u32le h.length ++ u32le h.file_size ++ u32le h.entry_address ++
        u32le h.file_id ++ u32le h.sign_type ++ u32le (headerChecksum h) ++
        u32le h.key_index) ++ h.rfu := by
    simp [HeaderCodec.encode]
  have hl : (u32le h.tag ++ u32le h.length ++ u32le h.file_size ++ u32le h.entry_address ++
      u32le h.file_id ++ u32le h.sign_type ++ u32le (headerChecksum h) ++
      u32le h.key_index).length = 32 := by
    simp [u32le]
  rw [hsp, ← hl, List.drop_left]

lemma byteAt_encode_eq_headerBytes0 (h : tAppliFileHeader) (i : Nat)
    (hi : i < 24 ∨ 28 ≤ i) :
    byteAt (HeaderCodec.encode h) i = byteAt (headerBytes0 h) i := by
  have e1 : HeaderCodec.encode h =
      (u32le h.tag ++ u32le h.length ++ u32le h.file_size ++ u32le h.entry_address ++
        u32le h.file_id ++ u32le h.sign_type) ++
      (u32le (headerChecksum h) ++ (u32le h.key_index ++ h.rfu)) := by
    simp [HeaderCodec.encode]
  have e2 : headerBytes0 h =
      (u32le h.tag ++ u32le h.length ++ u32le h.file_size ++ u32le h.entry_address ++
        u32le h.file_id ++ u32le h.sign_type) ++
      (u32le 0 ++ (u32le h.key_index ++ h.rfu)) := by
    simp [headerBytes0]
  have hAL : (u32le h.tag ++ u32le h.length ++ u32le h.file_size ++ u32le h.entry_address ++
      u32le h.file_id ++ u32le h.sign_type).length = 24 := by
    simp [u32le]
  rw [e1, e2,
    byteAt_append (u32le h.tag ++ u32le h.length ++ u32le h.file_size ++
      u32le h.entry_address ++ u32le h.file_id ++ u32le h.sign_type)
      (u32le (headerChecksum h) ++ (u32le h.key_index ++ h.rfu)) i,
    byteAt_append (u32le h.tag ++ u32le h.length ++ u32le h.file_size ++
      u32le h.entry_address ++ u32le h.file_id ++ u32le h.sign_type)
      (u32le 0 ++ (u32le h.key_index ++ h.rfu)) i, hAL]
  rcases hi with hi | hi
  · rw [if_pos (by omega), if_pos (by omega)]
  · rw [if_neg (by omega), if_neg (by omega),
      byteAt_u32le_append (headerChecksum h) (u32le h.key_index ++ h.rfu) _ (by omega),
      byteAt_u32le_append 0 (u32le h.key_index ++ h.rfu) _ (by omega)]

lemma checksumOfBuf_encode (h : tAppliFileHeader) :
    checksumOfBuf (HeaderCodec.encode h) = headerChecksum h := by
  unfold headerChecksum checksumOfBuf
  apply congrArg (fun z : Nat => z % 4294967296)
  apply Finset.sum_congr rfl
  intro i _
  by_cases hck : 24 ≤ i ∧ i < 28
  · rw [if_pos hck, if_pos hck]
  · rw [if_neg hck, if_neg hck]
    exact byteAt_encode_eq_headerBytes0 h i (by omega)

lemma mem_u32le_lt (x : Nat) : ∀ b ∈ u32le x, b < 256 := by
  intro b hb
  simp [u32le] at hb
  rcases hb with rfl | rfl | rfl | rfl <;> omega

lemma mem_append_lt {l1 l2 : List Nat} (h1 : ∀ b ∈ l1, b < 256)
    (h2 : ∀ b ∈ l2, b < 256) : ∀ b ∈ l1 ++ l2, b < 256 := by
  intro b hb
  rcases List.mem_append.mp hb with hb | hb
  exacts [h1 b hb, h2 b hb]

lemma mem_encode_lt (h : tAppliFileHeader) (hr : ∀ b ∈ h.rfu, b < 256) :
    ∀ b ∈ HeaderCodec.encode h, b < 256 := by
  unfold HeaderCodec.encode
  exact mem_append_lt (mem_u32le_lt _) (mem_append_lt (mem_u32le_lt _)
    (mem_append_lt (mem_u32le_lt _) (mem_append_lt (mem_u32le_lt _)
      (mem_append_lt (mem_u32le_lt _) (mem_append_lt (mem_u32le_lt _)
        (mem_append_lt (mem_u32le_lt _) (mem_append_lt (mem_u32le_lt _) hr)))))))

lemma readU32_setByte_ne (buf : List Nat) (j v off : Nat) (h : j < off ∨ off + 4 ≤ j) :
    readU32 (setByte buf j v) off = readU32 buf off := by
  unfold readU32
  rw [byteAt_setByte_ne _ _ _ _ (by omega), byteAt_setByte_ne _ _ _ _ (by omega),
      byteAt_setByte_ne _ _ _ _ (by omega), byteAt_setByte_ne _ _ _ _ (by omega)]

lemma xor_two_pow_ne (b k : Nat) : b ^^^ 2 ^ k ≠ b := by
  intro hE
  have h2 : b ^^^ (b ^^^ 2 ^ k) = b ^^^ b := congrArg (b ^^^ ·) hE
  rw [← Nat.xor_assoc, Nat.xor_self, Nat.zero_xor] at h2
  exact absurd h2 (Nat.pos_iff_ne_zero.mp (Nat.pos_pow_of_pos k (by norm_num)))

lemma checksumOfBuf_setByte_ne (buf : List Nat) (j v : Nat) (hj : j < FILE_HEADER_SZ)
    (hnc : j < 24 ∨ 28 ≤ j) (hlen : FILE_HEADER_SZ ≤ buf.length)
    (hb : byteAt buf j < 256) (hv : v < 256) (hne : v ≠ byteAt buf j) :
    checksumOfBuf (setByte buf j v) ≠ checksumOfBuf buf := by
  unfold checksumOfBuf
  have hmem : j ∈ Finset.range FILE_HEADER_SZ := Finset.mem_range.mpr hj
  rw [Finset.sum_eq_sum_diff_singleton_add hmem, Finset.sum_eq_sum_diff_singleton_add hmem]
  have hT : (Finset.range FILE_HEADER_SZ \ {j}).sum
        (fun i => if 24 ≤ i ∧ i < 28 then 0 else byteAt (setByte buf j v) i) =
      (Finset.range FILE_HEADER_SZ \ {j}).sum
        (fun i => if 24 ≤ i ∧ i < 28 then 0 else byteAt buf i) := by
    apply Finset.sum_congr rfl
    intro i hi
    have hij : i ≠ j := by
      rcases Finset.mem_sdiff.mp hi with ⟨_, hnotin⟩
      simpa using hnotin
    by_cases hck : 24 ≤ i ∧ i < 28
    · rw [if_pos hck, if_pos hck]
    · rw [if_neg hck, if_neg hck, byteAt_setByte_ne _ _ _ _ hij]
  rw [hT, if_neg (by omega), if_neg (by omega), byteAt_setByte_eq _ _ _ (by omega)]
  intro hEq
  omega

lemma decode_ok_ck (buf : List Nat) (hd : tAppliFileHeader)
    (h : HeaderCodec.decode buf = .ok hd) : checksumOfBuf buf = readU32 buf 24 := by
  unfold HeaderCodec.decode at h
  split_ifs at h with h1 h2 h3 h4 h5
  all_goals first
  | exact Except.noConfusion h
  | omega

lemma GET_ARCH_ID_eq_mod (x : Nat) : GET_ARCH_ID x = x % 16777216 := by
  unfold GET_ARCH_ID ARCH_ID_MASK
  rw [show (16777215 : Nat) = 2 ^ 24 - 1 from by norm_num, Nat.and_pow_two_sub_one_eq_mod]

lemma GET_ZIP_MODE_eq_div (x : Nat) (hx : x < 4294967296) :
    GET_ZIP_MODE x = x / 16777216 := by
  unfold GET_ZIP_MODE ZIP_MODE_MASK ZIP_MODE_REQ_SHIFT
  have key : (x &&& 4278190080) >>> 24 = x >>> 24 := by
    apply Nat.eq_of_testBit_eq
    intro i
    simp only [Nat.testBit_shiftRight, Nat.testBit_and]
    by_cases hi : i < 8
    · have hb : (4278190080 : Nat).testBit (24 + i) = true := by
        rw [show (4278190080 : Nat) = (2 ^ 8 - 1) <<< 24 from by norm_num [Nat.shiftLeft_eq],
          Nat.testBit_shiftLeft, Nat.testBit_two_pow_sub_one]
        simp only [ge_iff_le, Bool.and_eq_true, decide_eq_true_eq]
        omega
      rw [hb, Bool.and_true]
    · have hxb : x.testBit (24 + i) = false :=
        Nat.testBit_lt_two_pow (lt_of_lt_of_le hx (by
          calc (4294967296 : Nat) = 2 ^ 32 := by norm_num
          _ ≤ 2 ^ (24 + i) := Nat.pow_le_pow_right (by norm_num) (by omega)))
      simp [hxb]
  rw [key, Nat.shiftRight_eq_div_pow]
  have hdiv : x / 2 ^ 24 = x / 16777216 := by norm_num
  rw [hdiv]
  apply Nat.mod_eq_of_lt
  omega

lemma shiftLeft_or_mod (x : Nat) (hx : x < 4294967296) :
    ((x / 16777216) <<< 24) ||| x % 16777216 = x := by
  have h1 : x / 16777216 = x >>> 24 := by rw [Nat.shiftRight_eq_div_pow]
  rw [h1, show (16777216 : Nat) = 2 ^ 24 from by norm_num]
  apply Nat.eq_of_testBit_eq
  intro i
  simp only [Nat.testBit_or, Nat.testBit_shiftLeft, Nat.testBit_mod_two_pow,
    Nat.testBit_shiftRight, ge_iff_le]
  by_cases hi : i < 24
  · simp [hi, (by omega : ¬(24 ≤ i))]
  · have e : 24 + (i - 24) = i := by omega
    simp [hi, (by omega : 24 ≤ i), e]

lemma isNone_eq_false_of_isSome {α : Type} {o : Option α} (h : o.isSome = true) :
    ¬(o.isNone = true) := by
  rcases o with _ | a
  · simp at h
  · simp

lemma pairwise_ne_of_map_nodup {α β : Type} (f : α → β) :
    ∀ l : List α, (l.map f).Nodup → l.Pairwise fun p q => f p ≠ f q := by
  intro l
  induction l with
  | nil => intro _; exact List.Pairwise.nil
  | cons a l ih =>
    intro hnd
    rw [List.map_cons, List.nodup_cons] at hnd
    refine List.Pairwise.cons ?_ (ih hnd.2)
    intro q hq hEq
    exact hnd.1 (hEq ▸ List.mem_map_of_mem f hq)

/-- Claim C2: for every enumerated archive id and every zip mode in
{ZIP_MODE_NONE, ZIP_MODE_ZLIB}, decomposing the packed tag
`(zipMode << 24) | (archiveId & ARCH_ID_MASK)` with the source macros returns
exactly the original pair. -/
theorem decompose_encode_tag (a : ArchId) (z : Nat)
    (hz : z = ZIP_MODE_NONE ∨ z = ZIP_MODE_ZLIB) :
    TagTable.decompose (encode_tag (ArchId.toNat a) z) =
      Except.ok (ArchId.toNat a, z) := by
  rcases hz with rfl | rfl <;> cases a <;> decide

/-- Witness for C2 at the concrete input `ARCH_ID_APP`, zip mode zlib. -/
theorem decompose_encode_tag_witness :
    ((1 : Nat) = ZIP_MODE_NONE ∨ (1 : Nat) = ZIP_MODE_ZLIB) ∧
    TagTable.decompose (encode_tag (ArchId.toNat ArchId.ARCH_ID_APP) 1) =
      Except.ok (ArchId.toNat ArchId.ARCH_ID_APP, 1) :=
  ⟨by decide, decompose_encode_tag ArchId.ARCH_ID_APP 1 (by decide)⟩

/-- Claim C3: `TagTable.lookup` is total on the enumerated `ArchId` type — it
returns a record for every one of the 24 ids, exactly one table entry matches
each id, and no two table entries share the identical (acronym, id) pair. -/
theorem tagTable_total_unique :
    (∀ id : ArchId, (TagTable.lookup id).isSome = true ∧
      (DRV_ARCH_TYPE_TABLE_ON_PC.filter fun p => decide (p.arch_id = id)).length = 1) ∧
    DRV_ARCH_TYPE_TABLE_ON_PC.Pairwise
      (fun p q => ¬(p.acr = q.acr ∧ p.arch_id = q.arch_id)) := by
  constructor
  · intro id
    cases id <;> exact ⟨by decide, by decide⟩
  · have hids : DRV_ARCH_TYPE_TABLE_ON_PC.Pairwise fun p q => p.arch_id ≠ q.arch_id :=
      pairwise_ne_of_map_nodup (fun p : tArchFileProperty => p.arch_id)
        DRV_ARCH_TYPE_TABLE_ON_PC (by decide)
    exact hids.imp fun h hc => h hc.2

/-- Claim C7: every header variant's decode fails with `TooShort` on a buffer
strictly shorter than that variant's fixed structure size; the fixed sizes are
320 bytes for the file header (eight 32-bit fields plus the 0x120-byte RFU
block) and 12 bytes for the zip header. -/
theorem decode_too_short :
    (∀ buf : List Nat, buf.length < FILE_HEADER_SZ →
      HeaderCodec.decode buf = Except.error DecodeError.TooShort) ∧
    (∀ buf : List Nat, buf.length < ZIP_HEADER_SZ →
      ZipHeaderCodec.decode buf = Except.error DecodeError.TooShort) ∧
    (∀ buf : List Nat, buf.length < BOOT_TRAILER_HDR_SZ →
      BootTrailerCodec.decode buf = Except.error DecodeError.TooShort) ∧
    FILE_HEADER_SZ = 320 ∧ ZIP_HEADER_SZ = 12 ∧ ARCH_RFU_FIELD_SZ = 0x120 := by
  refine ⟨?_, ?_, ?_, rfl, rfl, rfl⟩
  · intro buf hb
    unfold HeaderCodec.decode
    rw [if_pos hb]
  · intro buf hb
    unfold ZipHeaderCodec.decode
    rw [if_pos hb]
  · intro buf hb
    unfold BootTrailerCodec.decode
    rw [if_pos hb]

/-- Witness for C7 at the empty buffer. -/
theorem decode_too_short_witness :
    ([] : List Nat).length < FILE_HEADER_SZ ∧
    HeaderCodec.decode [] = Except.error DecodeError.TooShort ∧
    ZipHeaderCodec.decode [] = Except.error DecodeError.TooShort ∧
    BootTrailerCodec.decode [] = Except.error DecodeError.TooShort :=
  ⟨by decide, decode_too_short.1 [] (by decide), decode_too_short.2.1 [] (by decide),
    decode_too_short.2.2.1 [] (by decide)⟩

/-- Claim C8: a 32-bit tag whose zip-mode field is neither `ZIP_MODE_NONE` nor
`ZIP_MODE_ZLIB` is reported to the caller as an unsupported-mode error by the
decomposition, and is never returned as a successfully decomposed pair. -/
theorem unsupported_zip_mode (rawTag : Nat) (h32 : rawTag < 4294967296)
    (h0 : GET_ZIP_MODE rawTag ≠ ZIP_MODE_NONE) (h1 : GET_ZIP_MODE rawTag ≠ ZIP_MODE_ZLIB) :
    TagTable.decompose rawTag = Except.error DecodeError.UnsupportedVersion ∧
    ∀ p : Nat × Nat, TagTable.decompose rawTag ≠ Except.ok p := by
  unfold TagTable.decompose
  rw [if_neg (by tauto)]
  exact ⟨rfl, fun p hE => Except.noConfusion hE⟩

/-- Witness for C8 at the concrete tag `0x02000000` (zip mode 2). -/
theorem unsupported_zip_mode_witness :
    (33554432 : Nat) < 4294967296 ∧ GET_ZIP_MODE 33554432 ≠ ZIP_MODE_NONE ∧
    GET_ZIP_MODE 33554432 ≠ ZIP_MODE_ZLIB ∧
    TagTable.decompose 33554432 = Except.error DecodeError.UnsupportedVersion :=
  ⟨by decide, by decide, by decide,
    (unsupported_zip_mode 33554432 (by decide) (by decide) (by decide)).1⟩

/-- Claim C9: for every 32-bit value, recomposing the two extracted tag fields
reproduces the value exactly, and the extracted fields are bounded by 2^24 and
2^8 respectively. -/
theorem tag_recompose (x : Nat) (hx : x < 4294967296) :
    ((GET_ZIP_MODE x) <<< 24) ||| GET_ARCH_ID x = x ∧
    GET_ARCH_ID x < 2 ^ 24 ∧ GET_ZIP_MODE x < 2 ^ 8 := by
  have h24 : (2 : Nat) ^ 24 = 16777216 := by norm_num
  have h8 : (2 : Nat) ^ 8 = 256 := by norm_num
  rw [GET_ARCH_ID_eq_mod, GET_ZIP_MODE_eq_div x hx, h24, h8]
  exact ⟨shiftLeft_or_mod x hx, by omega, by omega⟩

/-- Witness for C9 at the concrete 32-bit value `ARCH_TAG_9040`. -/
theorem tag_recompose_witness :
    ARCH_TAG_9040 < 4294967296 ∧
    (((GET_ZIP_MODE ARCH_TAG_9040) <<< 24) ||| GET_ARCH_ID ARCH_TAG_9040 = ARCH_TAG_9040 ∧
      GET_ARCH_ID ARCH_TAG_9040 < 2 ^ 24 ∧ GET_ZIP_MODE ARCH_TAG_9040 < 2 ^ 8) :=
  ⟨by decide, tag_recompose ARCH_TAG_9040 (by decide)⟩

/-- Claim C10: the 24 property-table entries appear in exactly the `ArchId`
enumeration order (entry `i` carries archive id `i`), and the IMEI slot holds
the OEM-factory-key property `ARCH_PROP_IMEI`, not the distinct
`ARCH_PROP_IMEI_NO_AUTH` variant. -/
theorem table_index_order :
    DRV_ARCH_TYPE_TABLE_ON_PC.map (fun p => ArchId.toNat p.arch_id) = List.range 24 ∧
    DRV_ARCH_TYPE_TABLE_ON_PC[4]? = some ARCH_PROP_IMEI ∧
    ARCH_PROP_IMEI.key_set = ARCH_OEM_FACT_KEY_SET ∧
    ARCH_PROP_IMEI_NO_AUTH.key_set = ARCH_NO_AUTH ∧
    ARCH_PROP_IMEI ≠ ARCH_PROP_IMEI_NO_AUTH := by
  refine ⟨by decide, by decide, rfl, rfl, ?_⟩
  intro hE
  exact absurd (congrArg tArchFileProperty.key_set hE) (by decide)

/-- Concrete valid header used by witnesses: archive id 0 (`ARCH_ID_APP`), zip
mode none, length equal to the fixed structure size, checksum equal to the
recomputed checksum (the length field bytes 0x40 and 0x01 sum to 65). -/
def hdrGood : tAppliFileHeader :=
  { tag := 0, length := 320, file_size := 0, entry_address := 0, file_id := 0,
    sign_type := 0, checksum := 65, key_index := 0, rfu := List.replicate 288 0 }

/-- Concrete header that is structurally valid in the sense of claim C1 (all
eight 32-bit fields in range, RFU block of exactly 0x120 bytes) but whose
length field is not the fixed structure size. -/
def hdrBadLen : tAppliFileHeader :=
  { tag := 0, length := 0, file_size := 0, entry_address := 0, file_id := 0,
    sign_type := 0, checksum := 0, key_index := 0, rfu := List.replicate 288 0 }

/-- Claim C1 (amended): for every `validHeader` — 32-bit fields in range, RFU
block of exactly `ARCH_RFU_FIELD_SZ` bytes, and additionally a length field
equal to the fixed structure size, a checksum field equal to the recomputed
checksum, and a tag whose archive id is known with a supported zip mode —
`HeaderCodec.decode (HeaderCodec.encode h)` succeeds and returns `h` with every
field equal to the original. -/
theorem header_roundtrip (h : tAppliFileHeader) (hv : validHeader h) :
    HeaderCodec.decode (HeaderCodec.encode h) = Except.ok h := by
  obtain ⟨htag, hlen, hfs, hea, hfi, hst, hki, hck, hrfuLen, hrfuB, hknown, hzip⟩ := hv
  have hlen320 : (HeaderCodec.encode h).length = 320 := by
    rw [length_encode, hrfuLen]
    rfl
  unfold HeaderCodec.decode
  rw [readU32_encode_0, Nat.mod_eq_of_lt htag, readU32_encode_4,
    Nat.mod_eq_of_lt (by rw [hlen, FILE_HEADER_SZ_eq]; norm_num),
    readU32_encode_8, Nat.mod_eq_of_lt hfs, readU32_encode_12, Nat.mod_eq_of_lt hea,
    readU32_encode_16, Nat.mod_eq_of_lt hfi, readU32_encode_20, Nat.mod_eq_of_lt hst,
    readU32_encode_24, readU32_encode_28, Nat.mod_eq_of_lt hki,
    checksumOfBuf_encode, drop_32_encode]
  rw [if_neg (by rw [hlen320, FILE_HEADER_SZ_eq]; omega),
    if_neg (isNone_eq_false_of_isSome hknown),
    if_neg (not_not_intro hzip),
    if_neg (by simp [hlen]),
    if_neg (by simp)]
  rw [← hrfuLen, List.take_length, ← hck]

set_option maxRecDepth 100000 in
/-- Witness for C1 (amended) at the concrete header `hdrGood`. -/
theorem header_roundtrip_witness :
    validHeader hdrGood ∧
    HeaderCodec.decode (HeaderCodec.encode hdrGood) = Except.ok hdrGood :=
  ⟨by decide, header_roundtrip hdrGood (by decide)⟩

set_option maxRecDepth 100000 in
/-- Counterexample to C1 as stated: `hdrBadLen` is structurally valid in the
claim's sense (all eight 32-bit fields in range, RFU block of exactly
`ARCH_RFU_FIELD_SZ` bytes), yet `decode (encode hdrBadLen)` does not return
`hdrBadLen` — the decoder rejects it with `LengthMismatch` because the length
field is 0, not the fixed structure size. -/
theorem header_roundtrip_counterexample :
    (hdrBadLen.tag < 4294967296 ∧ hdrBadLen.length < 4294967296 ∧
      hdrBadLen.file_size < 4294967296 ∧ hdrBadLen.entry_address < 4294967296 ∧
      hdrBadLen.file_id < 4294967296 ∧ hdrBadLen.sign_type < 4294967296 ∧
      hdrBadLen.checksum < 4294967296 ∧ hdrBadLen.key_index < 4294967296 ∧
      hdrBadLen.rfu.length = ARCH_RFU_FIELD_SZ) ∧
    HeaderCodec.decode (HeaderCodec.encode hdrBadLen) =
      Except.error DecodeError.LengthMismatch ∧
    HeaderCodec.decode (HeaderCodec.encode hdrBadLen) ≠ Except.ok hdrBadLen := by
  refine ⟨by decide, by decide, ?_⟩
  intro hE
  have := (by decide :
    HeaderCodec.decode (HeaderCodec.encode hdrBadLen) =
      Except.error DecodeError.LengthMismatch)
  rw [this] at hE
  exact Except.noConfusion hE

set_option maxRecDepth 400000 in
/-- Claim C5: on every buffer of at least the fixed file-header size,
`HeaderCodec.decode` fails with `BadMagic` exactly when the leading 32-bit
tag's low-24-bit archive-id field is unknown to the table; in particular the
defined header tag constants `ARCH_TAG_9040`, `ARCH_TAG_9140` and
`ARCH_TAG_9060` decompose to archive ids outside the enumerated set, so
buffers carrying them are rejected with `BadMagic`. -/
theorem decode_badmagic_iff :
    (∀ buf : List Nat, FILE_HEADER_SZ ≤ buf.length →
      (HeaderCodec.decode buf = Except.error DecodeError.BadMagic ↔
        TagTable.lookupNat (GET_ARCH_ID (readU32 buf 0)) = none)) ∧
    TagTable.lookupNat (GET_ARCH_ID ARCH_TAG_9040) = none ∧
    TagTable.lookupNat (GET_ARCH_ID ARCH_TAG_9140) = none ∧
    TagTable.lookupNat (GET_ARCH_ID ARCH_TAG_9060) = none ∧
    HeaderCodec.decode (u32le ARCH_TAG_9040 ++ List.replicate 316 0) =
      Except.error DecodeError.BadMagic ∧
    HeaderCodec.decode (u32le ARCH_TAG_9140 ++ List.replicate 316 0) =
      Except.error DecodeError.BadMagic ∧
    HeaderCodec.decode (u32le ARCH_TAG_9060 ++ List.replicate 316 0) =
      Except.error DecodeError.BadMagic := by
  refine ⟨?_, by decide, by decide, by decide, by decide, by decide, by decide⟩
  intro buf hblen
  unfold HeaderCodec.decode
  rw [if_neg (by omega)]
  constructor
  · intro hEq
    by_cases hB : (TagTable.lookupNat (GET_ARCH_ID (readU32 buf 0))).isNone = true
    · exact Option.isNone_iff_eq_none.mp hB
    · rw [if_neg hB] at hEq
      split_ifs at hEq <;> simp_all
  · intro hN
    rw [if_pos (by simp [hN])]

set_option maxRecDepth 400000 in
/-- Witness for C5's quantified part at the all-zero 320-byte buffer (tag 0,
archive id 0 = `ARCH_ID_APP`, which is known, so the decode result is not
`BadMagic`). -/
theorem decode_badmagic_iff_witness :
    FILE_HEADER_SZ ≤ (List.replicate 320 (0 : Nat)).length ∧
    (HeaderCodec.decode (List.replicate 320 (0 : Nat)) =
        Except.error DecodeError.BadMagic ↔
      TagTable.lookupNat (GET_ARCH_ID (readU32 (List.replicate 320 (0 : Nat)) 0)) = none) :=
  ⟨by decide, decode_badmagic_iff.1 _ (by decide)⟩

set_option maxRecDepth 100000 in
/-- Claim C6: `BootTrailerCodec.decode` reads the 32-bit magic and size fields
and fails with `TruncatedData` exactly when fewer than `size` bytes remain
after them, otherwise returning a trailer whose data block is exactly `size`
bytes; in particular the BT2-trailer scenario with size 16 and 16 payload
bytes decodes successfully, while size 17 with only 16 bytes available fails
with `TruncatedData`. -/
theorem boot_trailer_decode :
    (∀ buf : List Nat, BOOT_TRAILER_HDR_SZ ≤ buf.length →
      (BootTrailerCodec.decode buf = Except.error DecodeError.TruncatedData ↔
        buf.length - BOOT_TRAILER_HDR_SZ < readU32 buf 4) ∧
      (readU32 buf 4 ≤ buf.length - BOOT_TRAILER_HDR_SZ →
        BootTrailerCodec.decode buf = Except.ok
          { magic := readU32 buf 0, size := readU32 buf 4,
            data := (buf.drop BOOT_TRAILER_HDR_SZ).take (readU32 buf 4) } ∧
        ((buf.drop BOOT_TRAILER_HDR_SZ).take (readU32 buf 4)).length = readU32 buf 4)) ∧
    BootTrailerCodec.decode (u32le ARCH_TAG_BT2_TRAILER ++ u32le 16 ++ List.replicate 16 0) =
      Except.ok { magic := ARCH_TAG_BT2_TRAILER, size := 16, data := List.replicate 16 0 } ∧
    BootTrailerCodec.decode (u32le ARCH_TAG_BT2_TRAILER ++ u32le 17 ++ List.replicate 16 0) =
      Except.error DecodeError.TruncatedData := by
  refine ⟨?_, by decide, by decide⟩
  intro buf h8
  have hB8 : BOOT_TRAILER_HDR_SZ = 8 := rfl
  constructor
  · unfold BootTrailerCodec.decode
    rw [if_neg (by omega)]
    constructor
    · intro hEq
      by_cases htr : buf.length - BOOT_TRAILER_HDR_SZ < readU32 buf 4
      · exact htr
      · rw [if_neg htr] at hEq
        exact Except.noConfusion hEq
    · intro htr
      rw [if_pos htr]
  · intro hsz
    constructor
    · unfold BootTrailerCodec.decode
      rw [if_neg (by omega), if_neg (by omega)]
    · rw [List.length_take, List.length_drop]
      omega

/-- Witness for C6's quantified part at the all-zero 8-byte buffer (size 0, no
payload needed, decodes successfully). -/
theorem boot_trailer_decode_witness :
    BOOT_TRAILER_HDR_SZ ≤ (List.replicate 8 (0 : Nat)).length ∧
    ((BootTrailerCodec.decode (List.replicate 8 (0 : Nat)) =
          Except.error DecodeError.TruncatedData ↔
        (List.replicate 8 (0 : Nat)).length - BOOT_TRAILER_HDR_SZ <
          readU32 (List.replicate 8 (0 : Nat)) 4) ∧
      (readU32 (List.replicate 8 (0 : Nat)) 4 ≤
          (List.replicate 8 (0 : Nat)).length - BOOT_TRAILER_HDR_SZ →
        BootTrailerCodec.decode (List.replicate 8 (0 : Nat)) = Except.ok
          { magic := readU32 (List.replicate 8 (0 : Nat)) 0,
            size := readU32 (List.replicate 8 (0 : Nat)) 4,
            data := ((List.replicate 8 (0 : Nat)).drop BOOT_TRAILER_HDR_SZ).take
              (readU32 (List.replicate 8 (0 : Nat)) 4) } ∧
        (((List.replicate 8 (0 : Nat)).drop BOOT_TRAILER_HDR_SZ).take
            (readU32 (List.replicate 8 (0 : Nat)) 4)).length =
          readU32 (List.replicate 8 (0 : Nat)) 4)) :=
  ⟨by decide, boot_trailer_decode.1 _ (by decide)⟩

/-- Claim C4 (amended): for every valid header and every single-bit position of
the 320-byte encoding outside the checksum field, decoding the bit-flipped
encoding fails; when the flipped bit also lies outside the tag and length
fields the failure is `ChecksumMismatch` (a flip inside the tag or length
field can instead trip the earlier `BadMagic` / `UnsupportedVersion` /
`LengthMismatch` checks, which the decode runs before the checksum check). -/
theorem checksum_flip (h : tAppliFileHeader) (hv : validHeader h) (i : Nat)
    (hi : i < 8 * FILE_HEADER_SZ) (hnc : i < 8 * 24 ∨ 8 * 28 ≤ i) :
    (∃ e, HeaderCodec.decode (flipBit (HeaderCodec.encode h) i) = Except.error e) ∧
    (8 * 8 ≤ i → HeaderCodec.decode (flipBit (HeaderCodec.encode h) i) =
      Except.error DecodeError.ChecksumMismatch) := by
  obtain ⟨htag, hlen, hfs, hea, hfi, hst, hki, hck, hrfuLen, hrfuB, hknown, hzip⟩ := hv
  have hFHS : FILE_HEADER_SZ = 320 := rfl
  have hlenb : (HeaderCodec.encode h).length = 320 := by
    rw [length_encode, hrfuLen]
    rfl
  have hflip : flipBit (HeaderCodec.encode h) i =
      setByte (HeaderCodec.encode h) (i / 8)
        (byteAt (HeaderCodec.encode h) (i / 8) ^^^ 2 ^ (i % 8)) := rfl
  have hj24 : i / 8 < 24 ∨ 28 ≤ i / 8 := by omega
  have hb256 : byteAt (HeaderCodec.encode h) (i / 8) < 256 :=
    byteAt_lt_of_mem_lt _ _ (mem_encode_lt h hrfuB)
  have hv256 : byteAt (HeaderCodec.encode h) (i / 8) ^^^ 2 ^ (i % 8) < 256 := by
    have h2k : 2 ^ (i % 8) < 2 ^ 8 := Nat.pow_lt_pow_right (by norm_num) (by omega)
    have hb8 : byteAt (HeaderCodec.encode h) (i / 8) < 2 ^ 8 := by simpa using hb256
    simpa using Nat.xor_lt_two_pow hb8 h2k
  have hvne : byteAt (HeaderCodec.encode h) (i / 8) ^^^ 2 ^ (i % 8) ≠
      byteAt (HeaderCodec.encode h) (i / 8) := xor_two_pow_ne _ _
  have hckne : checksumOfBuf (flipBit (HeaderCodec.encode h) i) ≠
      checksumOfBuf (HeaderCodec.encode h) := by
    rw [hflip]
    exact checksumOfBuf_setByte_ne _ _ _ (by omega) hj24 (by omega) hb256 hv256 hvne
  have hstored : readU32 (flipBit (HeaderCodec.encode h) i) 24 =
      readU32 (HeaderCodec.encode h) 24 := by
    rw [hflip]
    exact readU32_setByte_ne _ _ _ _ (by omega)
  have hmain : checksumOfBuf (flipBit (HeaderCodec.encode h) i) ≠
      readU32 (flipBit (HeaderCodec.encode h) i) 24 := by
    rw [hstored, readU32_encode_24, ← checksumOfBuf_encode h]
    exact hckne
  constructor
  · cases hD : HeaderCodec.decode (flipBit (HeaderCodec.encode h) i) with
    | error e => exact ⟨e, rfl⟩
    | ok hd => exact absurd (decode_ok_ck _ _ hD) hmain
  · intro h64
    have htagr : readU32 (flipBit (HeaderCodec.encode h) i) 0 = h.tag := by
      rw [hflip, readU32_setByte_ne _ _ _ _ (by omega), readU32_encode_0,
        Nat.mod_eq_of_lt htag]
    have hlenr : readU32 (flipBit (HeaderCodec.encode h) i) 4 = FILE_HEADER_SZ := by
      rw [hflip, readU32_setByte_ne _ _ _ _ (by omega), readU32_encode_4, hlen]
      apply Nat.mod_eq_of_lt
      rw [hFHS]
      norm_num
    have hlens : (flipBit (HeaderCodec.encode h) i).length = 320 := by
      rw [hflip, length_setByte, hlenb]
    unfold HeaderCodec.decode
    rw [htagr, hlenr, hlens,
      if_neg (by omega),
      if_neg (isNone_eq_false_of_isSome hknown),
      if_neg (not_not_intro hzip),
      if_neg (by simp),
      if_pos hmain]

set_option maxRecDepth 400000 in
/-- Witness for C4 (amended) at the concrete header `hdrGood` and bit 2559
(the last bit of the RFU block). -/
theorem checksum_flip_witness :
    validHeader hdrGood ∧ 2559 < 8 * FILE_HEADER_SZ ∧
    (2559 < 8 * 24 ∨ 8 * 28 ≤ 2559) ∧
    (∃ e, HeaderCodec.decode (flipBit (HeaderCodec.encode hdrGood) 2559) =
      Except.error e) ∧
    (8 * 8 ≤ 2559 → HeaderCodec.decode (flipBit (HeaderCodec.encode hdrGood) 2559) =
      Except.error DecodeError.ChecksumMismatch) :=
  ⟨by decide, by decide, by decide,
    (checksum_flip hdrGood (by decide) 2559 (by decide) (by decide)).1,
    (checksum_flip hdrGood (by decide) 2559 (by decide) (by decide)).2⟩

set_option maxRecDepth 400000 in
/-- Counterexample to C4 as stated: flipping bit 32 — the lowest bit of the
length field, outside the checksum field — of the encoding of the valid header
`hdrGood` makes decode fail with `LengthMismatch`, not `ChecksumMismatch`. -/
theorem checksum_flip_counterexample :
    validHeader hdrGood ∧ 32 < 8 * 24 ∧
    HeaderCodec.decode (flipBit (HeaderCodec.encode hdrGood) 32) =
      Except.error DecodeError.LengthMismatch ∧
    HeaderCodec.decode (flipBit (HeaderCodec.encode hdrGood) 32) ≠
      Except.error DecodeError.ChecksumMismatch :=
  ⟨by decide, by decide, by decide, by decide⟩
